import Mathlib

/-!
# Verification of the incident-type REST controller

A shallow embedding of `src/dispatch/incident_type/views.py`: four route
handlers (list, create, update, get) over an incident-type store, with the
service layer and the generic pagination helper modelled from the spec
(they are external collaborators not present in the source slice).
-/

/-- A persisted incident type: an integer identifier and a name
(the spec fixes only the integer identifier; the name carries the
creation/update payload). -/
structure IncidentType where
  id : Nat
  name : String
deriving DecidableEq, Repr

/-- The relational store of incident types, modelled as the list of
persisted records. -/
abbrev Store := List IncidentType

/-- Roles of the enclosing application; the handlers compare against
`UserRoles.admin` (`dispatch.enums.UserRoles`). -/
inductive UserRoles where
  | admin
  | member
deriving DecidableEq, Repr

/-- The calling principal resolved from the authentication context
(`dispatch.auth.models.DispatchUser`); only its `role` is consulted. -/
structure DispatchUser where
  role : UserRoles
deriving DecidableEq, Repr

/-- Validated creation payload (`IncidentTypeCreate`). -/
structure IncidentTypeCreate where
  name : String
deriving DecidableEq, Repr

/-- Validated update payload (`IncidentTypeUpdate`). -/
structure IncidentTypeUpdate where
  name : String
deriving DecidableEq, Repr

/-- An HTTP error raised by a handler (`fastapi.HTTPException`). -/
structure HTTPException where
  status_code : Nat
  detail : String
deriving DecidableEq, Repr

namespace service

/-- Modelled from the spec: entity service layer `get(id) -> Entity|None`
(module `.service`, not in the source slice): look up the incident type
with the given id in the store. -/
def get (db_session : Store) (incident_type_id : Nat) : Option IncidentType :=
  db_session.find? (fun e => e.id == incident_type_id)

/-- Modelled from the spec: the next freshly assigned integer identifier,
strictly larger than every id in the store (ids start at 1, so id 0 is
never assigned). -/
def nextId (db_session : Store) : Nat :=
  db_session.foldr (fun e m => max e.id m) 0 + 1

/-- Modelled from the spec: entity service layer `create(input) -> Entity`
(module `.service`, not in the source slice): persist a new IncidentType
with a newly assigned id and return the resulting store and the created
entity. -/
def create (db_session : Store) (incident_type_in : IncidentTypeCreate) :
    Store × IncidentType :=
  let e : IncidentType := { id := nextId db_session, name := incident_type_in.name }
  (db_session ++ [e], e)

/-- Modelled from the spec: entity service layer
`update(entity, input) -> Entity` (module `.service`, not in the source
slice): apply the update payload to the existing entity and return the
resulting store and the updated entity. -/
def update (db_session : Store) (incident_type : IncidentType)
    (incident_type_in : IncidentTypeUpdate) : Store × IncidentType :=
  let e : IncidentType := { id := incident_type.id, name := incident_type_in.name }
  (db_session.map (fun x => if x.id == incident_type.id then e else x), e)

end service

/-- The pagination envelope returned by the list endpoint
(`IncidentTypePagination`): a page of results plus paging metadata. -/
structure IncidentTypePagination where
  items : List IncidentType
  total : Nat
  page : Nat
  itemsPerPage : Nat
deriving DecidableEq, Repr

/-- Modelled from the spec: free-text query match used by the
pagination/filter helper (an empty or absent query matches everything;
otherwise the name of the record must contain the query string). -/
def matchesQuery (query_str : Option String) (e : IncidentType) : Bool :=
  match query_str with
  | none => true
  | some s => s == "" || (e.name.splitOn s).length ≥ 2

/-- Modelled from the spec: evaluation of one (field, op, value) filter
triple against a record; unknown fields or operators impose no
constraint. -/
def matchesFilter (field : String) (op : String) (value : String)
    (e : IncidentType) : Bool :=
  let fv : String := match field with
    | "id" => toString e.id
    | "name" => e.name
    | _ => ""
  match op with
  | "==" => fv == value
  | "!=" => fv != value
  | _ => true

/-- Modelled from the spec: comparison key for one sort field. -/
def cmpField (field : String) (a b : IncidentType) : Ordering :=
  match field with
  | "id" => compare a.id b.id
  | "name" => compare a.name b.name
  | _ => Ordering.eq

/-- Modelled from the spec: lexicographic comparison over the positionally
paired sortBy[]/descending[] arrays. -/
def cmpSort (sort_by : List String) (descending : List Bool)
    (a b : IncidentType) : Ordering :=
  match sort_by, descending with
  | [], _ => Ordering.eq
  | f :: fs, [] =>
    match cmpField f a b with
    | Ordering.eq => cmpSort fs [] a b
    | o => o
  | f :: fs, d :: ds =>
    let o := cmpField f a b
    let o := if d then o.swap else o
    match o with
    | Ordering.eq => cmpSort fs ds a b
    | o => o

/-- Modelled from the spec: stable insertion used to sort the filtered
records. -/
def insertSorted (le : IncidentType → IncidentType → Bool)
    (x : IncidentType) : List IncidentType → List IncidentType
  | [] => [x]
  | y :: ys => if le x y then x :: y :: ys else y :: insertSorted le x ys

/-- Modelled from the spec: insertion sort by the combined comparison. -/
def sortRecords (sort_by : List String) (descending : List Bool)
    (l : List IncidentType) : List IncidentType :=
  l.foldr (insertSorted (fun a b => (cmpSort sort_by descending a b).isLE)) []

/-- Modelled from the spec: the generic pagination/filter/sort helper
`search_filter_sort_paginate(model, query_str, page, items_per_page,
sort_by, descending, fields, values, ops)` (module `dispatch.database`,
not in the source slice): filter by the free-text query and the parallel
filter triples, sort per the sort parameters, and slice out the requested
page, wrapped with paging metadata. -/
def search_filter_sort_paginate (db_session : Store) (query_str : Option String)
    (page : Nat) (items_per_page : Nat) (sort_by : List String)
    (descending : List Bool) (fields : List String) (values : List String)
    (ops : List String) : IncidentTypePagination :=
  let triples := fields.zip (ops.zip values)
  let filtered := db_session.filter (fun e =>
    matchesQuery query_str e &&
    triples.all (fun t => matchesFilter t.1 t.2.1 t.2.2 e))
  let sorted := sortRecords sort_by descending filtered
  let items := (sorted.drop ((page - 1) * items_per_page)).take items_per_page
  { items := items
    total := filtered.length
    page := page
    itemsPerPage := items_per_page }

/-- Handler for `GET /` (`get_incident_types` in views.py): returns all
incident types through the pagination helper.  Note the handler takes no
caller/principal parameter. -/
def get_incident_types (db_session : Store) (page : Nat)
    (items_per_page : Nat) (query_str : Option String) (sort_by : List String)
    (descending : List Bool) (fields : List String) (ops : List String)
    (values : List String) : IncidentTypePagination :=
  search_filter_sort_paginate db_session query_str page items_per_page
    sort_by descending fields values ops

/-- `GET /` with no query parameters: every parameter takes its declared
default from the handler signature (`page=1`, `itemsPerPage=5`, no query
string, empty sort and filter arrays). -/
def get_incident_types_defaults (db_session : Store) : IncidentTypePagination :=
  get_incident_types db_session 1 5 none [] [] [] [] []

/-- Handler for `POST /` (`create_incident_type` in views.py): reject
non-admin callers with 403, otherwise persist via the service layer and
return the resulting store and created entity. -/
def create_incident_type (db_session : Store)
    (incident_type_in : IncidentTypeCreate) (current_user : DispatchUser) :
    Except HTTPException (Store × IncidentType) :=
  if current_user.role ≠ UserRoles.admin then
    Except.error ⟨403, "You do not have permission to create incident types."⟩
  else
    Except.ok (service.create db_session incident_type_in)

/-- Handler for `PUT /\x7bincident_type_id\x7d` (`update_incident_type` in
views.py): look the entity up first (404 if absent), then check the
role of the caller (403 if not admin), then update via the service layer. -/
def update_incident_type (db_session : Store) (incident_type_id : Nat)
    (incident_type_in : IncidentTypeUpdate) (current_user : DispatchUser) :
    Except HTTPException (Store × IncidentType) :=
  match service.get db_session incident_type_id with
  | none =>
    Except.error ⟨404, "The incident type with this id does not exist."⟩
  | some incident_type =>
    if current_user.role ≠ UserRoles.admin then
      Except.error ⟨403, "You do not have permission to update incident types."⟩
    else
      Except.ok (service.update db_session incident_type incident_type_in)

/-- Handler for `GET /\x7bincident_type_id\x7d` (`get_incident_type` in
views.py): look the entity up (404 if absent) and return it.  Note the
handler takes no caller/principal parameter. -/
def get_incident_type (db_session : Store) (incident_type_id : Nat) :
    Except HTTPException IncidentType :=
  match service.get db_session incident_type_id with
  | none =>
    Except.error ⟨404, "The incident type with this id does not exist."⟩
  | some incident_type => Except.ok incident_type

/-- The framework invoking the list route: the authenticated principal is
available in request context but the handler signature does not consume
it. -/
def list_route_invoke (db_session : Store) (_principal : DispatchUser)
    (page : Nat) (items_per_page : Nat) (query_str : Option String)
    (sort_by : List String) (descending : List Bool) (fields : List String)
    (ops : List String) (values : List String) : IncidentTypePagination :=
  get_incident_types db_session page items_per_page query_str sort_by
    descending fields ops values

/-- The framework invoking the get-by-id route: the authenticated principal
is available in request context but the handler signature does not consume
it. -/
def get_route_invoke (db_session : Store) (_principal : DispatchUser)
    (incident_type_id : Nat) : Except HTTPException IncidentType :=
  get_incident_type db_session incident_type_id

/-- One HTTP request against the controller, with the caller identity the
framework would resolve for the mutating routes. -/
inductive Request where
  | listReq (page items_per_page : Nat) (query_str : Option String)
      (sort_by : List String) (descending : List Bool)
      (fields ops values : List String)
  | createReq (incident_type_in : IncidentTypeCreate) (caller : DispatchUser)
  | updateReq (incident_type_id : Nat) (incident_type_in : IncidentTypeUpdate)
      (caller : DispatchUser)
  | getReq (incident_type_id : Nat)
deriving DecidableEq, Repr

/-- The role of the caller a request carries, when the route consumes
one (the read routes take no principal). -/
def requestRole : Request → Option UserRoles
  | Request.createReq _ u => some u.role
  | Request.updateReq _ _ u => some u.role
  | _ => none

/-- The store after serving one request: a successful mutation installs the
store returned by the service layer; a failed request (HTTP error) and any
read leave the store unchanged. -/
def step (db_session : Store) : Request → Store
  | Request.listReq .. => db_session
  | Request.createReq inp u =>
    match create_incident_type db_session inp u with
    | Except.ok (s, _) => s
    | Except.error _ => db_session
  | Request.updateReq id inp u =>
    match update_incident_type db_session id inp u with
    | Except.ok (s, _) => s
    | Except.error _ => db_session
  | Request.getReq _ => db_session

/-! ## Sample data used by the witnesses -/

/-- A concrete store with two incident types. -/
def sampleStore : Store := [⟨1, "fire"⟩, ⟨2, "flood"⟩]

/-- A caller holding the admin role. -/
def adminUser : DispatchUser := ⟨UserRoles.admin⟩

/-- A caller holding a non-admin role. -/
def basicUser : DispatchUser := ⟨UserRoles.member⟩

/-! ## Helper lemmas -/

/-- Every id in the store is bounded by the running maximum folded over
the store. -/
lemma id_le_foldrMax : ∀ (s : Store), ∀ e ∈ s,
    e.id ≤ s.foldr (fun x m => max x.id m) 0
  | [], e, he => absurd he (List.not_mem_nil e)
  | x :: xs, e, he => by
    rcases List.mem_cons.mp he with h | h
    · rw [h]; exact Nat.le_max_left _ _
    · exact Nat.le_trans (id_le_foldrMax xs e h) (Nat.le_max_right _ _)

/-- The freshly assigned id differs from every id already in the store. -/
lemma nextId_fresh (s : Store) : ∀ e ∈ s, e.id ≠ service.nextId s := by
  intro e he
  have h := id_le_foldrMax s e he
  unfold service.nextId
  omega

/-- A request whose caller is not an admin (or that carries no caller at
all) leaves the store unchanged. -/
lemma step_nonadmin_eq (s : Store) (r : Request)
    (h : requestRole r ≠ some UserRoles.admin) : step s r = s := by
  cases r with
  | listReq p ipp q sb d f o v => rfl
  | createReq inp u =>
    have hu : u.role ≠ UserRoles.admin := by
      intro heq
      exact h (by simp [requestRole, heq])
    simp [step, create_incident_type, hu]
  | updateReq id inp u =>
    have hu : u.role ≠ UserRoles.admin := by
      intro heq
      exact h (by simp [requestRole, heq])
    cases hg : service.get s id with
    | none => simp [step, update_incident_type, hg]
    | some e => simp [step, update_incident_type, hg, hu]
  | getReq id => rfl

/-- A sequence of requests none of which carries an admin caller leaves
the store unchanged. -/
lemma foldl_step_nonadmin (s : Store) : ∀ (reqs : List Request),
    (∀ r ∈ reqs, requestRole r ≠ some UserRoles.admin) →
    reqs.foldl step s = s
  | [], _ => rfl
  | r :: rs, h => by
    have hs : step s r = s := step_nonadmin_eq s r (h r (by simp))
    rw [List.foldl_cons, hs]
    exact foldl_step_nonadmin s rs (fun x hx => h x (by simp [hx]))

/-! ## Claims -/

/-- C1: in `update_incident_type` the existence lookup precedes the
authorization check: for every caller and every id absent from the store,
update raises NotFound (404) and never PermissionDenied (403). -/
theorem C1_update_existence_precedes_auth (s : Store) (id : Nat)
    (inp : IncidentTypeUpdate) (u : DispatchUser)
    (h : service.get s id = none) :
    update_incident_type s id inp u =
      Except.error ⟨404, "The incident type with this id does not exist."⟩ ∧
    ∀ d : String,
      update_incident_type s id inp u ≠ Except.error ⟨403, d⟩ := by
  have h404 : update_incident_type s id inp u =
      Except.error ⟨404, "The incident type with this id does not exist."⟩ := by
    unfold update_incident_type
    rw [h]
  refine ⟨h404, fun d hc => ?_⟩
  rw [h404] at hc
  simp at hc

/-- C1 witness: a non-admin caller updating the absent id 99 receives 404,
not 403. -/
theorem C1_witness :
    update_incident_type sampleStore 99 ⟨"x"⟩ basicUser =
      Except.error ⟨404, "The incident type with this id does not exist."⟩ ∧
    ∀ d : String,
      update_incident_type sampleStore 99 ⟨"x"⟩ basicUser ≠ Except.error ⟨403, d⟩ :=
  C1_update_existence_precedes_auth sampleStore 99 ⟨"x"⟩ basicUser rfl

/-- C2: every non-admin caller is denied with 403 by create for every
payload, and by update for every payload whenever the target id exists. -/
theorem C2_nonadmin_writes_denied (s : Store) (u : DispatchUser)
    (h : u.role ≠ UserRoles.admin) :
    (∀ inp : IncidentTypeCreate,
      create_incident_type s inp u =
        Except.error ⟨403, "You do not have permission to create incident types."⟩) ∧
    (∀ (id : Nat) (e : IncidentType) (inp : IncidentTypeUpdate),
      service.get s id = some e →
      update_incident_type s id inp u =
        Except.error ⟨403, "You do not have permission to update incident types."⟩) := by
  constructor
  · intro inp
    unfold create_incident_type
    rw [if_pos h]
  · intro id e inp hg
    unfold update_incident_type
    rw [hg]
    simp [h]

/-- C2 witness: the non-admin caller is denied on create and on update of
the existing id 1. -/
theorem C2_witness :
    create_incident_type sampleStore ⟨"x"⟩ basicUser =
      Except.error ⟨403, "You do not have permission to create incident types."⟩ ∧
    update_incident_type sampleStore 1 ⟨"y"⟩ basicUser =
      Except.error ⟨403, "You do not have permission to update incident types."⟩ :=
  ⟨(C2_nonadmin_writes_denied sampleStore basicUser (by decide)).1 ⟨"x"⟩,
   (C2_nonadmin_writes_denied sampleStore basicUser (by decide)).2 1 ⟨1, "fire"⟩ ⟨"y"⟩ rfl⟩

/-- C3: for every id absent from the store, get returns 404, and update
returns 404 for every caller and payload. -/
theorem C3_absent_id_404 (s : Store) (id : Nat)
    (h : service.get s id = none) :
    get_incident_type s id =
      Except.error ⟨404, "The incident type with this id does not exist."⟩ ∧
    ∀ (inp : IncidentTypeUpdate) (u : DispatchUser),
      update_incident_type s id inp u =
        Except.error ⟨404, "The incident type with this id does not exist."⟩ := by
  constructor
  · unfold get_incident_type
    rw [h]
  · intro inp u
    unfold update_incident_type
    rw [h]

/-- C3 witness: id 0 is absent from the sample store, so get and update
both return 404 there. -/
theorem C3_witness :
    get_incident_type sampleStore 0 =
      Except.error ⟨404, "The incident type with this id does not exist."⟩ ∧
    update_incident_type sampleStore 0 ⟨"x"⟩ adminUser =
      Except.error ⟨404, "The incident type with this id does not exist."⟩ :=
  ⟨(C3_absent_id_404 sampleStore 0 rfl).1,
   (C3_absent_id_404 sampleStore 0 rfl).2 ⟨"x"⟩ adminUser⟩

/-- C4: an admin create persists a new entity with a fresh id carrying the
payload name and returns it; the same request by a non-admin caller fails
with 403 and leaves the store unchanged. -/
theorem C4_create_admin_persists (s : Store) (inp : IncidentTypeCreate)
    (u : DispatchUser) :
    (u.role = UserRoles.admin →
      create_incident_type s inp u =
        Except.ok (s ++ [⟨service.nextId s, inp.name⟩],
          (⟨service.nextId s, inp.name⟩ : IncidentType)) ∧
      ∀ x ∈ s, x.id ≠ service.nextId s) ∧
    (u.role ≠ UserRoles.admin →
      create_incident_type s inp u =
        Except.error ⟨403, "You do not have permission to create incident types."⟩ ∧
      step s (Request.createReq inp u) = s) := by
  constructor
  · intro hrole
    constructor
    · unfold create_incident_type
      rw [if_neg (fun hc => hc hrole)]
      rfl
    · exact nextId_fresh s
  · intro hrole
    have h403 : create_incident_type s inp u =
        Except.error ⟨403, "You do not have permission to create incident types."⟩ := by
      unfold create_incident_type
      rw [if_pos hrole]
    exact ⟨h403, by simp [step, h403]⟩

/-- C4 witness: the admin creates "hail" with fresh id 3; the non-admin is
rejected and the store is unchanged. -/
theorem C4_witness :
    create_incident_type sampleStore ⟨"hail"⟩ adminUser =
      Except.ok (sampleStore ++ [⟨3, "hail"⟩], (⟨3, "hail"⟩ : IncidentType)) ∧
    create_incident_type sampleStore ⟨"hail"⟩ basicUser =
      Except.error ⟨403, "You do not have permission to create incident types."⟩ ∧
    step sampleStore (Request.createReq ⟨"hail"⟩ basicUser) = sampleStore := by
  refine ⟨?_, ?_, ?_⟩
  · exact ((C4_create_admin_persists sampleStore ⟨"hail"⟩ adminUser).1 rfl).1
  · exact ((C4_create_admin_persists sampleStore ⟨"hail"⟩ basicUser).2 (by decide)).1
  · exact ((C4_create_admin_persists sampleStore ⟨"hail"⟩ basicUser).2 (by decide)).2

/-- C5: for an existing id and an admin caller, update succeeds, goes
through the service layer, and the returned entity reflects the payload
fields (its name is the payload name, its id is preserved). -/
theorem C5_update_admin_applies_payload (s : Store) (id : Nat)
    (e : IncidentType) (inp : IncidentTypeUpdate) (u : DispatchUser)
    (hget : service.get s id = some e) (hrole : u.role = UserRoles.admin) :
    update_incident_type s id inp u = Except.ok (service.update s e inp) ∧
    (service.update s e inp).2.name = inp.name ∧
    (service.update s e inp).2.id = e.id := by
  refine ⟨?_, rfl, rfl⟩
  unfold update_incident_type
  rw [hget]
  simp [hrole]

/-- C5 witness: the admin updates id 1 of the sample store to "wildfire"
and gets back the updated entity. -/
theorem C5_witness :
    update_incident_type sampleStore 1 ⟨"wildfire"⟩ adminUser =
      Except.ok ([⟨1, "wildfire"⟩, ⟨2, "flood"⟩],
        (⟨1, "wildfire"⟩ : IncidentType)) :=
  (C5_update_admin_applies_payload sampleStore 1 ⟨1, "fire"⟩ ⟨"wildfire"⟩
    adminUser rfl rfl).1

/-- C6: for every id present in the store, get returns the stored entity
with 200, and the route has no authorization gate: invoking it with any
principal yields that same entity. -/
theorem C6_get_existing_returns_entity (s : Store) (id : Nat)
    (e : IncidentType) (h : service.get s id = some e) :
    get_incident_type s id = Except.ok e ∧
    ∀ u : DispatchUser, get_route_invoke s u id = Except.ok e := by
  have hg : get_incident_type s id = Except.ok e := by
    unfold get_incident_type
    rw [h]
  exact ⟨hg, fun u => hg⟩

/-- C6 witness: id 2 of the sample store is returned to the non-admin
caller. -/
theorem C6_witness :
    get_incident_type sampleStore 2 = Except.ok ⟨2, "flood"⟩ ∧
    get_route_invoke sampleStore basicUser 2 = Except.ok ⟨2, "flood"⟩ :=
  ⟨(C6_get_existing_returns_entity sampleStore 2 ⟨2, "flood"⟩ rfl).1,
   (C6_get_existing_returns_entity sampleStore 2 ⟨2, "flood"⟩ rfl).2 basicUser⟩

/-- C7: the list endpoint called with no parameters uses the defaults
page=1 and itemsPerPage=5, so it returns page 1 with at most 5 items, and
repeated calls over the same store return the same envelope. -/
theorem C7_list_defaults (s : Store) :
    (get_incident_types_defaults s).page = 1 ∧
    (get_incident_types_defaults s).itemsPerPage = 5 ∧
    (get_incident_types_defaults s).items.length ≤ 5 ∧
    get_incident_types_defaults s = get_incident_types_defaults s := by
  refine ⟨rfl, rfl, ?_, rfl⟩
  exact List.length_take_le 5 _

/-- C8: no sequence of requests by non-admin callers changes the store,
while the read routes answer every caller: any principal invoking the list
route gets the envelope and any principal invoking get on a present id
gets the entity. -/
theorem C8_only_admin_mutates (s : Store) (reqs : List Request)
    (h : ∀ r ∈ reqs, requestRole r ≠ some UserRoles.admin) :
    reqs.foldl step s = s ∧
    (∀ (u : DispatchUser) (page items_per_page : Nat)
      (query_str : Option String) (sort_by : List String)
      (descending : List Bool) (fields ops values : List String),
      list_route_invoke s u page items_per_page query_str sort_by descending
        fields ops values =
      search_filter_sort_paginate s query_str page items_per_page sort_by
        descending fields values ops) ∧
    (∀ (u : DispatchUser) (id : Nat) (e : IncidentType),
      service.get s id = some e → get_route_invoke s u id = Except.ok e) := by
  refine ⟨foldl_step_nonadmin s reqs h, fun _ _ _ _ _ _ _ _ _ => rfl, ?_⟩
  intro u id e hg
  unfold get_route_invoke get_incident_type
  rw [hg]

/-- A concrete sequence of non-admin requests: a create, an update of an
existing id, a get and a list. -/
def sampleReqs : List Request :=
  [Request.createReq ⟨"hail"⟩ basicUser,
   Request.updateReq 1 ⟨"y"⟩ basicUser,
   Request.getReq 2,
   Request.listReq 1 5 none [] [] [] [] []]

/-- C8 witness: the sample non-admin request sequence leaves the sample
store unchanged, and the non-admin caller reads id 1. -/
theorem C8_witness :
    sampleReqs.foldl step sampleStore = sampleStore ∧
    get_route_invoke sampleStore basicUser 1 = Except.ok ⟨1, "fire"⟩ :=
  ⟨(C8_only_admin_mutates sampleStore sampleReqs (by decide)).1,
   (C8_only_admin_mutates sampleStore sampleReqs (by decide)).2.2 basicUser 1
     ⟨1, "fire"⟩ rfl⟩

/-- C9: for an existing id and a non-admin caller, update fails with 403
before the service update call, so the store is unchanged by the failed
request. -/
theorem C9_update_denied_atomic (s : Store) (id : Nat) (e : IncidentType)
    (inp : IncidentTypeUpdate) (u : DispatchUser)
    (hget : service.get s id = some e) (hrole : u.role ≠ UserRoles.admin) :
    update_incident_type s id inp u =
      Except.error ⟨403, "You do not have permission to update incident types."⟩ ∧
    step s (Request.updateReq id inp u) = s := by
  have h403 : update_incident_type s id inp u =
      Except.error ⟨403, "You do not have permission to update incident types."⟩ := by
    unfold update_incident_type
    rw [hget]
    simp [hrole]
  exact ⟨h403, by simp [step, h403]⟩

/-- C9 witness: the non-admin caller updating the existing id 2 receives
403 and the store is untouched. -/
theorem C9_witness :
    update_incident_type sampleStore 2 ⟨"z"⟩ basicUser =
      Except.error ⟨403, "You do not have permission to update incident types."⟩ ∧
    step sampleStore (Request.updateReq 2 ⟨"z"⟩ basicUser) = sampleStore :=
  C9_update_denied_atomic sampleStore 2 ⟨2, "flood"⟩ ⟨"z"⟩ basicUser rfl (by decide)

/-- C10: the read handlers take no caller parameter, so two invocations
that differ only in the calling principal return identical results. -/
theorem C10_reads_noninterference (s : Store) (u1 u2 : DispatchUser)
    (page items_per_page : Nat) (query_str : Option String)
    (sort_by : List String) (descending : List Bool)
    (fields ops values : List String) (id : Nat) :
    list_route_invoke s u1 page items_per_page query_str sort_by descending
        fields ops values =
      list_route_invoke s u2 page items_per_page query_str sort_by descending
        fields ops values ∧
    get_route_invoke s u1 id = get_route_invoke s u2 id :=
  ⟨rfl, rfl⟩
